import Mathlib

/-!
Shallow embedding of the calculation core of the Snap-Fit Design Calculator
(`src/snap_fit_app.py`): the function `calculate_cantilever_snap` and the
safety comparison `is_safe`.  Python floats are modelled as real numbers,
except for the `float('inf')` sentinel returned by the zero-denominator
guards, which is modelled by a dedicated constructor.  Python float division
by zero raises `ZeroDivisionError`; division is therefore embedded as a
fallible operation in the `Except` monad.
-/

/-- A Python float value as produced by the calculator: a finite value
(modelled as a real number) or the `float('inf')` sentinel produced by the
zero-denominator guards of the push-on / pull-off force formulas. -/
inductive PyFloat where
  | fin (x : ℝ) : PyFloat
  | inf : PyFloat

/-- The Python exception that can escape `calculate_cantilever_snap`:
dividing a float by zero raises `ZeroDivisionError`. -/
inductive PyExn where
  | zeroDivisionError : PyExn

/-- The success dictionary returned by `calculate_cantilever_snap`
(keys `"Max Strain"`, `"Deflection Force"`, `"Push-on Force"`,
`"Pull-off Force"`, with `"error": None`). -/
structure CantileverResult where
  max_strain : ℝ
  deflection_force : ℝ
  push_on_force : PyFloat
  pull_off_force : PyFloat

/-- A normal (non-raising) return of `calculate_cantilever_snap`: either the
early `{"error": "Beam dimensions (L, t, b) cannot be zero."}` dictionary,
which carries no numeric outputs, or the full result dictionary. -/
inductive CalcReturn where
  | invalidGeometry : CalcReturn
  | result (r : CantileverResult) : CalcReturn

/-- Python float division: raises `ZeroDivisionError` on a zero divisor,
otherwise exact real division (the real-number model of IEEE `/`). -/
noncomputable def pydiv (a b : ℝ) : Except PyExn ℝ :=
  if b = 0 then Except.error PyExn.zeroDivisionError else Except.ok (a / b)

/-- `math.radians`: degree-to-radian conversion. -/
noncomputable def radians (d : ℝ) : ℝ := d * (Real.pi / 180)

/-- Shallow embedding of `calculate_cantilever_snap` from
`src/snap_fit_app.py` (lines 47-80).  The Python statement order is kept:
the zero-dimension guard first, then unit conversions, strain, deflection
force, push-on force and pull-off force; each Python `/` on a value that is
not syntactically guarded goes through `pydiv`, and the two conditional
expressions guarding the force denominators are embedded as `if`s returning
`PyFloat.inf` on a zero denominator. -/
noncomputable def calculate_cantilever_snap
    (E_gpa t L b y mu alpha_deg alpha_prime_deg q : ℝ) :
    Except PyExn CalcReturn :=
  if L = 0 ∨ t = 0 ∨ b = 0 then Except.ok CalcReturn.invalidGeometry
  else
    let E_mpa := E_gpa * 1000
    let alpha_rad := radians alpha_deg
    let alpha_prime_rad := radians alpha_prime_deg
    Except.bind (pydiv (3 * y * t) (2 * L ^ 2)) fun strain0 =>
    let strain := strain0 * q
    let strain_percent := strain * 100
    Except.bind (pydiv (E_mpa * b * y) q) fun df0 =>
    Except.bind (pydiv t L) fun tL =>
    Except.bind (pydiv (df0 * tL ^ 3) 4) fun deflection_force =>
    let tan_alpha := Real.tan alpha_rad
    Except.bind
      (if 1 - mu * tan_alpha ≠ 0 then
        Except.map PyFloat.fin
          (pydiv (deflection_force * (mu + tan_alpha)) (1 - mu * tan_alpha))
      else Except.ok PyFloat.inf) fun push_on_force =>
    let tan_alpha_prime := Real.tan alpha_prime_rad
    Except.bind
      (if 1 + mu * tan_alpha_prime ≠ 0 then
        Except.map PyFloat.fin
          (pydiv (deflection_force * (Real.tan alpha_prime_rad - mu))
            (1 + mu * Real.tan alpha_prime_rad))
      else Except.ok PyFloat.inf) fun pull_off_force =>
    Except.ok (CalcReturn.result
      { max_strain := strain_percent
        deflection_force := deflection_force
        push_on_force := push_on_force
        pull_off_force := pull_off_force })

/-- Embedding of line 184 of `src/snap_fit_app.py`:
`is_safe = results["Max Strain"] < permissible_strain`. -/
def is_safe (max_strain_percent permissible_strain_percent : ℝ) : Prop :=
  max_strain_percent < permissible_strain_percent

/-- The engine returned normally with the full result dictionary (the one
with `error = None` and the four numeric fields). -/
def isFullResult : Except PyExn CalcReturn → Prop
  | Except.ok (CalcReturn.result _) => True
  | _ => False

theorem ok_bind {α β : Type} (a : α) (f : α → Except PyExn β) :
    Except.bind (Except.ok a) f = f a := rfl

theorem error_bind {α β : Type} (e : PyExn) (f : α → Except PyExn β) :
    Except.bind (Except.error e) f = Except.error e := rfl

theorem ok_map {α β : Type} (g : α → β) (a : α) :
    Except.map g (Except.ok a : Except PyExn α) = Except.ok (g a) := rfl

theorem pydiv_of_ne (a b : ℝ) (hb : b ≠ 0) : pydiv a b = Except.ok (a / b) := by
  simp [pydiv, hb]

theorem pydiv_zero (a : ℝ) : pydiv a 0 = Except.error PyExn.zeroDivisionError := by
  simp [pydiv]

/-- With nonzero beam dimensions and a nonzero Q factor, the engine returns
normally and every output field is given by its closed-form expression. -/
theorem calculate_cantilever_snap_eq
    (E_gpa t L b y mu alpha_deg alpha_prime_deg q : ℝ)
    (hL : L ≠ 0) (ht : t ≠ 0) (hb : b ≠ 0) (hq : q ≠ 0) :
    calculate_cantilever_snap E_gpa t L b y mu alpha_deg alpha_prime_deg q =
      Except.ok (CalcReturn.result
        { max_strain := (3 * y * t) / (2 * L ^ 2) * q * 100
          deflection_force := E_gpa * 1000 * b * y / q * (t / L) ^ 3 / 4
          push_on_force :=
            if 1 - mu * Real.tan (radians alpha_deg) ≠ 0 then
              PyFloat.fin (E_gpa * 1000 * b * y / q * (t / L) ^ 3 / 4 *
                (mu + Real.tan (radians alpha_deg)) /
                (1 - mu * Real.tan (radians alpha_deg)))
            else PyFloat.inf
          pull_off_force :=
            if 1 + mu * Real.tan (radians alpha_prime_deg) ≠ 0 then
              PyFloat.fin (E_gpa * 1000 * b * y / q * (t / L) ^ 3 / 4 *
                (Real.tan (radians alpha_prime_deg) - mu) /
                (1 + mu * Real.tan (radians alpha_prime_deg)))
            else PyFloat.inf }) := by
  have hg : ¬(L = 0 ∨ t = 0 ∨ b = 0) := by
    push_neg
    exact ⟨hL, ht, hb⟩
  have h2L : (2 : ℝ) * L ^ 2 ≠ 0 := by positivity
  have h4 : (4 : ℝ) ≠ 0 := by norm_num
  simp only [calculate_cantilever_snap, if_neg hg, pydiv_of_ne _ _ h2L,
    pydiv_of_ne _ _ hq, pydiv_of_ne _ _ hL, pydiv_of_ne _ _ h4, ok_bind]
  split_ifs with h1 h2 h3
  · simp [pydiv_of_ne _ _ h1, pydiv_of_ne _ _ h2, ok_map, ok_bind]
  · simp [pydiv_of_ne _ _ h1, ok_map, ok_bind]
  · simp [pydiv_of_ne _ _ h3, ok_map, ok_bind]
  · simp [ok_bind]

/-- If any beam dimension is zero, the engine returns the early error
dictionary before reaching any division. -/
theorem calculate_cantilever_snap_guard
    (E_gpa t L b y mu alpha_deg alpha_prime_deg q : ℝ)
    (h : L = 0 ∨ t = 0 ∨ b = 0) :
    calculate_cantilever_snap E_gpa t L b y mu alpha_deg alpha_prime_deg q =
      Except.ok CalcReturn.invalidGeometry := by
  simp only [calculate_cantilever_snap, if_pos h]

/-- With nonzero beam dimensions but a zero Q factor, the division
`(E_mpa * b * y) / q` in the deflection-force line raises
`ZeroDivisionError`. -/
theorem calculate_cantilever_snap_q_zero
    (E_gpa t L b y mu alpha_deg alpha_prime_deg : ℝ)
    (hL : L ≠ 0) (ht : t ≠ 0) (hb : b ≠ 0) :
    calculate_cantilever_snap E_gpa t L b y mu alpha_deg alpha_prime_deg 0 =
      Except.error PyExn.zeroDivisionError := by
  have hg : ¬(L = 0 ∨ t = 0 ∨ b = 0) := by
    push_neg
    exact ⟨hL, ht, hb⟩
  have h2L : (2 : ℝ) * L ^ 2 ≠ 0 := by positivity
  simp only [calculate_cantilever_snap, if_neg hg, pydiv_of_ne _ _ h2L,
    ok_bind, pydiv_zero, error_bind]

/-- A full result dictionary is only returned when all of L, t, b and Q are
nonzero: a zero dimension is caught by the guard, and a zero Q factor
raises before the result is assembled. -/
theorem calculate_ok_nonzero
    (E_gpa t L b y mu alpha_deg alpha_prime_deg q : ℝ) (r : CantileverResult)
    (h : calculate_cantilever_snap E_gpa t L b y mu alpha_deg alpha_prime_deg q =
      Except.ok (CalcReturn.result r)) :
    L ≠ 0 ∧ t ≠ 0 ∧ b ≠ 0 ∧ q ≠ 0 := by
  have hL : L ≠ 0 := by
    intro h0
    rw [calculate_cantilever_snap_guard _ _ _ _ _ _ _ _ _ (Or.inl h0)] at h
    simp at h
  have ht : t ≠ 0 := by
    intro h0
    rw [calculate_cantilever_snap_guard _ _ _ _ _ _ _ _ _ (Or.inr (Or.inl h0))] at h
    simp at h
  have hb : b ≠ 0 := by
    intro h0
    rw [calculate_cantilever_snap_guard _ _ _ _ _ _ _ _ _ (Or.inr (Or.inr h0))] at h
    simp at h
  have hq : q ≠ 0 := by
    intro h0
    rw [h0, calculate_cantilever_snap_q_zero _ _ _ _ _ _ _ _ hL ht hb] at h
    simp at h
  exact ⟨hL, ht, hb, hq⟩

theorem radians_zero : radians 0 = 0 := by
  simp [radians]

theorem radians_45 : radians 45 = Real.pi / 4 := by
  rw [radians]
  ring

theorem radians_neg_45 : radians (-45) = -(Real.pi / 4) := by
  rw [radians]
  ring

theorem tan_radians_zero : Real.tan (radians 0) = 0 := by
  rw [radians_zero, Real.tan_zero]

theorem tan_radians_45 : Real.tan (radians 45) = 1 := by
  rw [radians_45, Real.tan_pi_div_four]

theorem tan_radians_neg_45 : Real.tan (radians (-45)) = -1 := by
  rw [radians_neg_45, Real.tan_neg, Real.tan_pi_div_four]

theorem calc_base :
    calculate_cantilever_snap 1 1 1 1 1 0 0 0 1 =
      Except.ok (CalcReturn.result ⟨150, 250, PyFloat.fin 0, PyFloat.fin 0⟩) := by
  rw [calculate_cantilever_snap_eq 1 1 1 1 1 0 0 0 1
    one_ne_zero one_ne_zero one_ne_zero one_ne_zero]
  norm_num [tan_radians_zero]

theorem calc_E2 :
    calculate_cantilever_snap 2 1 1 1 1 0 0 0 1 =
      Except.ok (CalcReturn.result ⟨150, 500, PyFloat.fin 0, PyFloat.fin 0⟩) := by
  rw [calculate_cantilever_snap_eq 2 1 1 1 1 0 0 0 1
    one_ne_zero one_ne_zero one_ne_zero one_ne_zero]
  norm_num [tan_radians_zero]

theorem calc_Y3 :
    calculate_cantilever_snap 1 1 1 1 3 0 0 0 1 =
      Except.ok (CalcReturn.result ⟨450, 750, PyFloat.fin 0, PyFloat.fin 0⟩) := by
  rw [calculate_cantilever_snap_eq 1 1 1 1 3 0 0 0 1
    one_ne_zero one_ne_zero one_ne_zero one_ne_zero]
  norm_num [tan_radians_zero]

theorem calc_lock :
    calculate_cantilever_snap 1 1 1 1 1 1 45 0 1 =
      Except.ok (CalcReturn.result ⟨150, 250, PyFloat.inf, PyFloat.fin (-250)⟩) := by
  rw [calculate_cantilever_snap_eq 1 1 1 1 1 1 45 0 1
    one_ne_zero one_ne_zero one_ne_zero one_ne_zero]
  norm_num [tan_radians_45, tan_radians_zero]

theorem calc_mu2 :
    calculate_cantilever_snap 1 1 1 1 1 2 45 0 1 =
      Except.ok (CalcReturn.result ⟨150, 250, PyFloat.fin (-750), PyFloat.fin (-500)⟩) := by
  rw [calculate_cantilever_snap_eq 1 1 1 1 1 2 45 0 1
    one_ne_zero one_ne_zero one_ne_zero one_ne_zero]
  norm_num [tan_radians_45, tan_radians_zero]

theorem calc_negmu :
    calculate_cantilever_snap 1 1 1 1 1 (-2) (-45) 0 1 =
      Except.ok (CalcReturn.result ⟨150, 250, PyFloat.fin 750, PyFloat.fin 500⟩) := by
  rw [calculate_cantilever_snap_eq 1 1 1 1 1 (-2) (-45) 0 1
    one_ne_zero one_ne_zero one_ne_zero one_ne_zero]
  norm_num [tan_radians_neg_45, tan_radians_zero]

/-- C1: for every input with L ≠ 0, t ≠ 0 and b ≠ 0, the Max Strain field of
any result dictionary the engine returns equals
`100 * (3 * Y * t) / (2 * L^2) * Q`. -/
theorem C1_max_strain_formula
    (E_gpa t L b y mu alpha_deg alpha_prime_deg q : ℝ) (r : CantileverResult)
    (hL : L ≠ 0) (ht : t ≠ 0) (hb : b ≠ 0)
    (h : calculate_cantilever_snap E_gpa t L b y mu alpha_deg alpha_prime_deg q =
      Except.ok (CalcReturn.result r)) :
    r.max_strain = 100 * (3 * y * t) / (2 * L ^ 2) * q := by
  obtain ⟨-, -, -, hq⟩ := calculate_ok_nonzero _ _ _ _ _ _ _ _ _ _ h
  rw [calculate_cantilever_snap_eq _ _ _ _ _ _ _ _ _ hL ht hb hq] at h
  simp only [Except.ok.injEq, CalcReturn.result.injEq] at h
  subst h
  show (3 * y * t) / (2 * L ^ 2) * q * 100 = 100 * (3 * y * t) / (2 * L ^ 2) * q
  ring

theorem C1_max_strain_formula_witness :
    (⟨150, 250, PyFloat.fin 0, PyFloat.fin 0⟩ : CantileverResult).max_strain =
      100 * (3 * 1 * 1) / (2 * 1 ^ 2) * 1 :=
  C1_max_strain_formula 1 1 1 1 1 0 0 0 1 _
    one_ne_zero one_ne_zero one_ne_zero calc_base

/-- C2: for every input with L ≠ 0, t ≠ 0, b ≠ 0 and Q ≠ 0, the Deflection
Force field of any result dictionary equals `(E_mpa * b * Y / Q) * (t/L)^3 / 4`
with `E_mpa = E_gpa * 1000`. -/
theorem C2_deflection_force_formula
    (E_gpa t L b y mu alpha_deg alpha_prime_deg q : ℝ) (r : CantileverResult)
    (hL : L ≠ 0) (ht : t ≠ 0) (hb : b ≠ 0) (hq : q ≠ 0)
    (h : calculate_cantilever_snap E_gpa t L b y mu alpha_deg alpha_prime_deg q =
      Except.ok (CalcReturn.result r)) :
    r.deflection_force = (E_gpa * 1000) * b * y / q * (t / L) ^ 3 / 4 := by
  rw [calculate_cantilever_snap_eq _ _ _ _ _ _ _ _ _ hL ht hb hq] at h
  simp only [Except.ok.injEq, CalcReturn.result.injEq] at h
  subst h
  show E_gpa * 1000 * b * y / q * (t / L) ^ 3 / 4 =
    (E_gpa * 1000) * b * y / q * (t / L) ^ 3 / 4
  ring

theorem C2_deflection_force_formula_witness :
    (⟨150, 250, PyFloat.fin 0, PyFloat.fin 0⟩ : CantileverResult).deflection_force =
      ((1 : ℝ) * 1000) * 1 * 1 / 1 * (1 / 1) ^ 3 / 4 :=
  C2_deflection_force_formula 1 1 1 1 1 0 0 0 1 _
    one_ne_zero one_ne_zero one_ne_zero one_ne_zero calc_base

/-- C3: whenever the engine returns a result dictionary, the Push-on Force
field is `P * (μ + tan(α)) / (1 − μ·tan(α))` with α converted from degrees
to radians, and it is the positive-infinity sentinel (not an error, not an
exception) exactly on a zero denominator. -/
theorem C3_push_on_force_spec
    (E_gpa t L b y mu alpha_deg alpha_prime_deg q : ℝ) (r : CantileverResult)
    (h : calculate_cantilever_snap E_gpa t L b y mu alpha_deg alpha_prime_deg q =
      Except.ok (CalcReturn.result r)) :
    (1 - mu * Real.tan (radians alpha_deg) = 0 → r.push_on_force = PyFloat.inf) ∧
    (1 - mu * Real.tan (radians alpha_deg) ≠ 0 →
      r.push_on_force = PyFloat.fin (r.deflection_force *
        (mu + Real.tan (radians alpha_deg)) /
        (1 - mu * Real.tan (radians alpha_deg)))) := by
  obtain ⟨hL, ht, hb, hq⟩ := calculate_ok_nonzero _ _ _ _ _ _ _ _ _ _ h
  rw [calculate_cantilever_snap_eq _ _ _ _ _ _ _ _ _ hL ht hb hq] at h
  simp only [Except.ok.injEq, CalcReturn.result.injEq] at h
  subst h
  constructor
  · intro hd
    simp [hd]
  · intro hd
    simp [hd]

theorem C3_push_on_force_spec_witness :
    ((1 : ℝ) - 1 * Real.tan (radians 45) = 0 →
      (⟨150, 250, PyFloat.inf, PyFloat.fin (-250)⟩ : CantileverResult).push_on_force =
        PyFloat.inf) ∧
    ((1 : ℝ) - 1 * Real.tan (radians 45) ≠ 0 →
      (⟨150, 250, PyFloat.inf, PyFloat.fin (-250)⟩ : CantileverResult).push_on_force =
        PyFloat.fin ((⟨150, 250, PyFloat.inf, PyFloat.fin (-250)⟩ :
          CantileverResult).deflection_force *
          (1 + Real.tan (radians 45)) / (1 - 1 * Real.tan (radians 45)))) :=
  C3_push_on_force_spec 1 1 1 1 1 1 45 0 1 _ calc_lock

/-- C4: whenever the engine returns a result dictionary, the Pull-off Force
field is `P * (tan(α′) − μ) / (1 + μ·tan(α′))` (degrees converted to
radians) with zero denominator mapped to the infinity sentinel; and for
μ ≥ 0 and α′ in [0°, 90°) the denominator `1 + μ·tan(α′)` is positive, so
the infinity branch is never taken for such inputs. -/
theorem C4_pull_off_force_spec :
    (∀ E_gpa t L b y mu alpha_deg alpha_prime_deg q : ℝ, ∀ r : CantileverResult,
      calculate_cantilever_snap E_gpa t L b y mu alpha_deg alpha_prime_deg q =
        Except.ok (CalcReturn.result r) →
      (1 + mu * Real.tan (radians alpha_prime_deg) = 0 →
        r.pull_off_force = PyFloat.inf) ∧
      (1 + mu * Real.tan (radians alpha_prime_deg) ≠ 0 →
        r.pull_off_force = PyFloat.fin (r.deflection_force *
          (Real.tan (radians alpha_prime_deg) - mu) /
          (1 + mu * Real.tan (radians alpha_prime_deg))))) ∧
    (∀ mu alpha_prime_deg : ℝ, 0 ≤ mu → 0 ≤ alpha_prime_deg →
      alpha_prime_deg < 90 →
      0 < 1 + mu * Real.tan (radians alpha_prime_deg)) := by
  constructor
  · intro E_gpa t L b y mu alpha_deg alpha_prime_deg q r h
    obtain ⟨hL, ht, hb, hq⟩ := calculate_ok_nonzero _ _ _ _ _ _ _ _ _ _ h
    rw [calculate_cantilever_snap_eq _ _ _ _ _ _ _ _ _ hL ht hb hq] at h
    simp only [Except.ok.injEq, CalcReturn.result.injEq] at h
    subst h
    constructor
    · intro hd
      simp [hd]
    · intro hd
      simp [hd]
  · intro mu alpha_prime_deg hmu h0 h90
    have hpi : (0 : ℝ) < Real.pi / 180 := by positivity
    have hrad0 : 0 ≤ radians alpha_prime_deg := mul_nonneg h0 hpi.le
    have hradle : radians alpha_prime_deg ≤ Real.pi / 2 := by
      have h1 : alpha_prime_deg * (Real.pi / 180) ≤ 90 * (Real.pi / 180) :=
        mul_le_mul_of_nonneg_right h90.le hpi.le
      have h2 : (90 : ℝ) * (Real.pi / 180) = Real.pi / 2 := by ring
      rw [radians]
      linarith
    have htan : 0 ≤ Real.tan (radians alpha_prime_deg) :=
      Real.tan_nonneg_of_nonneg_of_le_pi_div_two hrad0 hradle
    have : 0 ≤ mu * Real.tan (radians alpha_prime_deg) := mul_nonneg hmu htan
    linarith

theorem C4_pull_off_force_spec_witness :
    (((1 : ℝ) + 0 * Real.tan (radians 0) = 0 →
      (⟨150, 250, PyFloat.fin 0, PyFloat.fin 0⟩ : CantileverResult).pull_off_force =
        PyFloat.inf) ∧
    ((1 : ℝ) + 0 * Real.tan (radians 0) ≠ 0 →
      (⟨150, 250, PyFloat.fin 0, PyFloat.fin 0⟩ : CantileverResult).pull_off_force =
        PyFloat.fin ((⟨150, 250, PyFloat.fin 0, PyFloat.fin 0⟩ :
          CantileverResult).deflection_force *
          (Real.tan (radians 0) - 0) / (1 + 0 * Real.tan (radians 0))))) ∧
    0 < 1 + (1 : ℝ) * Real.tan (radians 45) :=
  ⟨C4_pull_off_force_spec.1 1 1 1 1 1 0 0 0 1 _ calc_base,
    C4_pull_off_force_spec.2 1 45 (by norm_num) (by norm_num) (by norm_num)⟩

/-- C5: whenever L = 0 or t = 0 or b = 0 (any combination), the engine
returns the `InvalidGeometry` error dictionary (which carries no numeric
outputs), before performing any division — in particular no
`ZeroDivisionError` is raised even when Q = 0. -/
theorem C5_zero_dimension_invalid_geometry
    (E_gpa t L b y mu alpha_deg alpha_prime_deg q : ℝ)
    (h : L = 0 ∨ t = 0 ∨ b = 0) :
    calculate_cantilever_snap E_gpa t L b y mu alpha_deg alpha_prime_deg q =
      Except.ok CalcReturn.invalidGeometry :=
  calculate_cantilever_snap_guard E_gpa t L b y mu alpha_deg alpha_prime_deg q h

theorem C5_zero_dimension_invalid_geometry_witness :
    calculate_cantilever_snap 1 1 0 1 1 0 0 0 0 =
      Except.ok CalcReturn.invalidGeometry :=
  C5_zero_dimension_invalid_geometry 1 1 0 1 1 0 0 0 0 (Or.inl rfl)

/-- C6 counterexample: at L = t = b = 1 (all nonzero) but Q = 0, the engine
raises `ZeroDivisionError` instead of returning normally, so the claim as
stated (every L,t,b ≠ 0 input returns error = None) fails. -/
theorem C6_valid_input_counterexample :
    calculate_cantilever_snap 1 1 1 1 1 0 0 0 0 =
      Except.error PyExn.zeroDivisionError :=
  calculate_cantilever_snap_q_zero 1 1 1 1 1 0 0 0
    one_ne_zero one_ne_zero one_ne_zero

/-- C6 (amended): for every input with L ≠ 0, t ≠ 0, b ≠ 0 AND Q ≠ 0, the
engine returns normally (no exception) with the full result dictionary
(error = None); its strain and deflection-force fields are finite reals and
its two force fields are finite-or-infinity `PyFloat`s by construction. -/
theorem C6_valid_input_returns_result
    (E_gpa t L b y mu alpha_deg alpha_prime_deg q : ℝ)
    (hL : L ≠ 0) (ht : t ≠ 0) (hb : b ≠ 0) (hq : q ≠ 0) :
    isFullResult
      (calculate_cantilever_snap E_gpa t L b y mu alpha_deg alpha_prime_deg q) := by
  rw [calculate_cantilever_snap_eq _ _ _ _ _ _ _ _ _ hL ht hb hq]
  simp [isFullResult]

theorem C6_valid_input_returns_result_witness :
    isFullResult (calculate_cantilever_snap 1 1 1 1 1 0 0 0 1) :=
  C6_valid_input_returns_result 1 1 1 1 1 0 0 0 1
    one_ne_zero one_ne_zero one_ne_zero one_ne_zero

/-- C7: the safety verdict is a strict comparison of the computed max strain
against the permissible strain: equality (2.5 vs 2.5) is unsafe, and a
strictly smaller strain (2.499 vs 2.5) is safe. -/
theorem C7_is_safe_strict :
    (∀ ms ps : ℝ, is_safe ms ps ↔ ms < ps) ∧
    ¬ is_safe 2.5 2.5 ∧ is_safe 2.499 2.5 := by
  refine ⟨fun ms ps => Iff.rfl, ?_, ?_⟩
  · norm_num [is_safe]
  · norm_num [is_safe]

theorem C7_is_safe_strict_witness : is_safe 2.499 2.5 :=
  C7_is_safe_strict.2.2

/-- C8: the outputs are homogeneous of degree 1 in E and in Y: doubling E
doubles the deflection force, and scaling Y by k scales both the max strain
and the deflection force by k. -/
theorem C8_linearity
    (E_gpa t L b y mu alpha_deg alpha_prime_deg q k : ℝ)
    (hL : L ≠ 0) (ht : t ≠ 0) (hb : b ≠ 0) (hq : q ≠ 0)
    (r r2 r3 : CantileverResult)
    (h1 : calculate_cantilever_snap E_gpa t L b y mu alpha_deg alpha_prime_deg q =
      Except.ok (CalcReturn.result r))
    (h2 : calculate_cantilever_snap (2 * E_gpa) t L b y mu alpha_deg alpha_prime_deg q =
      Except.ok (CalcReturn.result r2))
    (h3 : calculate_cantilever_snap E_gpa t L b (k * y) mu alpha_deg alpha_prime_deg q =
      Except.ok (CalcReturn.result r3)) :
    r2.deflection_force = 2 * r.deflection_force ∧
    r3.max_strain = k * r.max_strain ∧
    r3.deflection_force = k * r.deflection_force := by
  rw [calculate_cantilever_snap_eq _ _ _ _ _ _ _ _ _ hL ht hb hq] at h1 h2 h3
  simp only [Except.ok.injEq, CalcReturn.result.injEq] at h1 h2 h3
  subst h1
  subst h2
  subst h3
  refine ⟨?_, ?_, ?_⟩
  · show 2 * E_gpa * 1000 * b * y / q * (t / L) ^ 3 / 4 =
      2 * (E_gpa * 1000 * b * y / q * (t / L) ^ 3 / 4)
    ring
  · show 3 * (k * y) * t / (2 * L ^ 2) * q * 100 =
      k * (3 * y * t / (2 * L ^ 2) * q * 100)
    ring
  · show E_gpa * 1000 * b * (k * y) / q * (t / L) ^ 3 / 4 =
      k * (E_gpa * 1000 * b * y / q * (t / L) ^ 3 / 4)
    ring

theorem C8_linearity_witness :
    (⟨150, 500, PyFloat.fin 0, PyFloat.fin 0⟩ : CantileverResult).deflection_force =
      2 * (⟨150, 250, PyFloat.fin 0, PyFloat.fin 0⟩ : CantileverResult).deflection_force ∧
    (⟨450, 750, PyFloat.fin 0, PyFloat.fin 0⟩ : CantileverResult).max_strain =
      3 * (⟨150, 250, PyFloat.fin 0, PyFloat.fin 0⟩ : CantileverResult).max_strain ∧
    (⟨450, 750, PyFloat.fin 0, PyFloat.fin 0⟩ : CantileverResult).deflection_force =
      3 * (⟨150, 250, PyFloat.fin 0, PyFloat.fin 0⟩ : CantileverResult).deflection_force :=
  C8_linearity 1 1 1 1 1 0 0 0 1 3
    one_ne_zero one_ne_zero one_ne_zero one_ne_zero _ _ _
    calc_base
    (by norm_num [calc_E2])
    (by norm_num [calc_Y3])

/-- C9: for inputs with L ≠ 0, t ≠ 0, b ≠ 0 but Q = 0, the engine does not
return an error dictionary; it raises an uncaught `ZeroDivisionError` at the
deflection-force division, because Q is never checked before being used as a
divisor. -/
theorem C9_q_zero_zero_division
    (E_gpa t L b y mu alpha_deg alpha_prime_deg : ℝ)
    (hL : L ≠ 0) (ht : t ≠ 0) (hb : b ≠ 0) :
    calculate_cantilever_snap E_gpa t L b y mu alpha_deg alpha_prime_deg 0 =
      Except.error PyExn.zeroDivisionError :=
  calculate_cantilever_snap_q_zero _ _ _ _ _ _ _ _ hL ht hb

theorem C9_q_zero_zero_division_witness :
    calculate_cantilever_snap 2 1 1 1 1 0 0 0 0 =
      Except.error PyExn.zeroDivisionError :=
  C9_q_zero_zero_division 2 1 1 1 1 0 0 0
    one_ne_zero one_ne_zero one_ne_zero

/-- C10 counterexample: at μ = −2, α = −45° we have μ·tan(α) = 2 > 1 and
P = 250 > 0, yet the push-on force is the finite value +750 — the same sign
as P, refuting the claimed "opposite sign (negative for positive P)". -/
theorem C10_sign_counterexample :
    calculate_cantilever_snap 1 1 1 1 1 (-2) (-45) 0 1 =
      Except.ok (CalcReturn.result ⟨150, 250, PyFloat.fin 750, PyFloat.fin 500⟩) ∧
    1 < (-2 : ℝ) * Real.tan (radians (-45)) ∧
    (0 : ℝ) < 250 ∧ (0 : ℝ) < 750 := by
  refine ⟨calc_negmu, ?_, by norm_num, by norm_num⟩
  rw [tan_radians_neg_45]
  norm_num

/-- C10 (amended): whenever the engine returns a result dictionary, its
push-on force is the infinity sentinel exactly when the computed denominator
`1 − μ·tan(α)` is zero; and when additionally μ ≥ 0, the denominator is
negative and the deflection force P is positive, the push-on force is a
finite negative value. -/
theorem C10_negative_denominator_finite
    (E_gpa t L b y mu alpha_deg alpha_prime_deg q : ℝ) (r : CantileverResult)
    (h : calculate_cantilever_snap E_gpa t L b y mu alpha_deg alpha_prime_deg q =
      Except.ok (CalcReturn.result r)) :
    (r.push_on_force = PyFloat.inf ↔ 1 - mu * Real.tan (radians alpha_deg) = 0) ∧
    (0 ≤ mu → 1 - mu * Real.tan (radians alpha_deg) < 0 →
      0 < r.deflection_force →
      ∃ w : ℝ, r.push_on_force = PyFloat.fin w ∧ w < 0) := by
  obtain ⟨hL, ht, hb, hq⟩ := calculate_ok_nonzero _ _ _ _ _ _ _ _ _ _ h
  rw [calculate_cantilever_snap_eq _ _ _ _ _ _ _ _ _ hL ht hb hq] at h
  simp only [Except.ok.injEq, CalcReturn.result.injEq] at h
  subst h
  constructor
  · constructor
    · intro hinf
      by_contra hd
      simp [hd] at hinf
    · intro hd
      simp [hd]
  · intro hmu hneg hP
    have hd : 1 - mu * Real.tan (radians alpha_deg) ≠ 0 := ne_of_lt hneg
    have hP' : 0 < E_gpa * 1000 * b * y / q * (t / L) ^ 3 / 4 := hP
    have hT : 0 < Real.tan (radians alpha_deg) := by
      rcases lt_or_le 0 (Real.tan (radians alpha_deg)) with hT | hT
      · exact hT
      · have : mu * Real.tan (radians alpha_deg) ≤ 0 :=
          mul_nonpos_of_nonneg_of_nonpos hmu hT
        linarith
    refine ⟨E_gpa * 1000 * b * y / q * (t / L) ^ 3 / 4 *
      (mu + Real.tan (radians alpha_deg)) /
      (1 - mu * Real.tan (radians alpha_deg)), ?_, ?_⟩
    · simp [hd]
    · have hnum : 0 < E_gpa * 1000 * b * y / q * (t / L) ^ 3 / 4 *
        (mu + Real.tan (radians alpha_deg)) := mul_pos hP' (by linarith)
      exact div_neg_of_pos_of_neg hnum hneg

theorem C10_negative_denominator_finite_witness :
    ∃ w : ℝ,
      (⟨150, 250, PyFloat.fin (-750), PyFloat.fin (-500)⟩ :
        CantileverResult).push_on_force = PyFloat.fin w ∧ w < 0 :=
  (C10_negative_denominator_finite 1 1 1 1 1 2 45 0 1 _ calc_mu2).2
    (by norm_num) (by rw [tan_radians_45]; norm_num) (by norm_num)
